import Mathlib

/-!
Verification of the x402 "upto" payment scheme implementation.

The development shallowly embeds the TypeScript sources:
  packages/upto/src/facilitator/permit2.ts   (verifyUpto, settleUpto)
  packages/upto/src/client/scheme.ts         (createUptoPermit2Payload)
  packages/upto/src/constants.ts             (addresses, USDC table)
  the server scheme (parseUsdcAmount, UptoEvmServerScheme.buildRequirements)
  the Hono middleware (uptoPaymentMiddleware)
  the audit store (recordVerification over the payments table)

Wire-level numeric fields are decimal strings, exactly as in the source;
JavaScript's `parseInt` and `BigInt` string conversions are modelled by
`parseIntJS` and `BigIntJS` below (NaN is `none` for parseInt, a thrown
SyntaxError is `none` for BigInt).  Chain I/O goes through an oracle
`FacilitatorSigner` record of functions, and every chain interaction a run
performs is recorded in a `List ChainOp` trace.
-/

/-- Numeric value of a list of decimal digit characters, folding left as a
base-10 accumulator (the same arithmetic JavaScript performs when it parses
a decimal literal). -/
def digitsToNat (l : List Char) : Nat :=
  l.foldl (fun a c => a * 10 + (c.toNat - 48)) 0

/-- The decimal digit character for a digit value below ten. -/
def digitChar (d : Nat) : Char := Char.ofNat (48 + d)

/-- Decimal printing of a natural number with explicit fuel (structural
recursion so that the kernel can evaluate it); mirrors `Number.toString` /
`BigInt.toString` for nonnegative values. -/
def natToDigitsAux : Nat → Nat → List Char
  | 0, _ => []
  | f + 1, n =>
    if n < 10 then [digitChar n]
    else natToDigitsAux f (n / 10) ++ [digitChar (n % 10)]

/-- Decimal string of a natural number. -/
def natToString (n : Nat) : String := String.mk (natToDigitsAux (n + 1) n)

/-- Decimal string of an integer (JavaScript `toString` on an integer). -/
def intToString (i : Int) : String :=
  if i < 0 then String.mk ('-' :: natToDigitsAux (i.natAbs + 1) i.natAbs)
  else natToString i.toNat

/-- Strip one leading minus sign, reporting whether one was present. -/
def parseSign (l : List Char) : Bool × List Char :=
  match l with
  | [] => (false, [])
  | c :: cs => if c = '-' then (true, cs) else (false, c :: cs)

/-- JavaScript `parseInt(s)` on a decimal string: an optional sign followed
by the longest run of leading digits; `none` models NaN (no digits).
Radix detection, leading whitespace and a leading plus sign are not
modelled: the wire strings of this system never contain them. -/
def parseIntJS (s : String) : Option Int :=
  if (parseSign s.data).2.takeWhile Char.isDigit = [] then none
  else if (parseSign s.data).1 then
    some (-(digitsToNat ((parseSign s.data).2.takeWhile Char.isDigit) : Int))
  else
    some ((digitsToNat ((parseSign s.data).2.takeWhile Char.isDigit) : Int))

/-- JavaScript `BigInt(s)` on a decimal string: the whole string must be an
optional sign followed by digits, otherwise a SyntaxError is thrown
(`none`); the empty string converts to 0.  Hex/octal/binary literals and
surrounding whitespace are not modelled: the wire strings of this system
never contain them. -/
def BigIntJS (s : String) : Option Int :=
  if s.data = [] then some 0
  else if (parseSign s.data).2 ≠ [] ∧ (parseSign s.data).2.all Char.isDigit then
    (if (parseSign s.data).1 then some (-(digitsToNat (parseSign s.data).2 : Int))
     else some ((digitsToNat (parseSign s.data).2 : Int)))
  else none

/-- A canonical unsigned decimal wire string: nonempty, all digits. -/
def canonicalNat (s : String) : Bool :=
  !s.data.isEmpty && s.data.all Char.isDigit

/-- Integer value of a canonical digit string. -/
def strVal (s : String) : Int := (digitsToNat s.data : Int)

theorem digitChar_toNat {d : Nat} (h : d < 10) : (digitChar d).toNat = 48 + d := by
  interval_cases d <;> decide

theorem digitChar_isDigit {d : Nat} (h : d < 10) : (digitChar d).isDigit = true := by
  interval_cases d <;> decide

theorem digitsToNat_append (l : List Char) (c : Char) :
    digitsToNat (l ++ [c]) = digitsToNat l * 10 + (c.toNat - 48) := by
  simp [digitsToNat, List.foldl_append]

theorem natToDigitsAux_spec :
    ∀ f n : Nat, n < f →
      digitsToNat (natToDigitsAux f n) = n
      ∧ (natToDigitsAux f n).all Char.isDigit = true
      ∧ natToDigitsAux f n ≠ [] := by
  intro f
  induction f with
  | zero => intro n h; omega
  | succ f ih =>
    intro n h
    by_cases h10 : n < 10
    · refine ⟨?_, ?_, ?_⟩
      · simp [natToDigitsAux, h10, digitsToNat, digitChar_toNat h10]
      · simp [natToDigitsAux, h10, digitChar_isDigit h10]
      · simp [natToDigitsAux, h10]
    · have hpos : 0 < n := by omega
      have hlt : n / 10 < n := Nat.div_lt_self hpos (by omega)
      have hdiv : n / 10 < f := by omega
      obtain ⟨ih1, ih2, ih3⟩ := ih (n / 10) hdiv
      refine ⟨?_, ?_, ?_⟩
      · rw [natToDigitsAux]
        simp only [h10, if_false]
        rw [digitsToNat_append, ih1, digitChar_toNat (Nat.mod_lt n (by omega))]
        omega
      · rw [natToDigitsAux]
        simp only [h10, if_false]
        simp [List.all_append, ih2, digitChar_isDigit (Nat.mod_lt n (by omega))]
      · rw [natToDigitsAux]
        simp only [h10, if_false]
        simp

theorem takeWhile_of_all {l : List Char} {p : Char → Bool}
    (h : l.all p = true) : l.takeWhile p = l := by
  induction l with
  | nil => rfl
  | cons a l ih =>
    simp only [List.all_cons, Bool.and_eq_true] at h
    simp [List.takeWhile_cons, h.1, ih h.2]

theorem parseSign_of_all_digits {l : List Char} (hne : l ≠ [])
    (hall : l.all Char.isDigit = true) : parseSign l = (false, l) := by
  cases l with
  | nil => exact absurd rfl hne
  | cons c cs =>
    simp only [List.all_cons, Bool.and_eq_true] at hall
    have hc : c ≠ '-' := by
      intro hc; rw [hc] at hall; exact absurd hall.1 (by decide)
    simp [parseSign, hc]

theorem parseIntJS_canonical {s : String} (h : canonicalNat s = true) :
    parseIntJS s = some (strVal s) := by
  simp only [canonicalNat, Bool.and_eq_true, Bool.not_eq_true', List.isEmpty_eq_false_iff_exists_mem] at h
  have hne : s.data ≠ [] := by
    obtain ⟨⟨x, hx⟩, _⟩ := h
    intro hnil; rw [hnil] at hx; exact absurd hx (List.not_mem_nil x)
  have hps := parseSign_of_all_digits hne h.2
  have htw := takeWhile_of_all (l := s.data) (p := Char.isDigit) h.2
  simp [parseIntJS, hps, htw, hne, strVal]

theorem BigIntJS_canonical {s : String} (h : canonicalNat s = true) :
    BigIntJS s = some (strVal s) := by
  simp only [canonicalNat, Bool.and_eq_true, Bool.not_eq_true', List.isEmpty_eq_false_iff_exists_mem] at h
  have hne : s.data ≠ [] := by
    obtain ⟨⟨x, hx⟩, _⟩ := h
    intro hnil; rw [hnil] at hx; exact absurd hx (List.not_mem_nil x)
  have hps := parseSign_of_all_digits hne h.2
  simp [BigIntJS, hps, hne, h.2, strVal]

theorem canonicalNat_natToString (n : Nat) : canonicalNat (natToString n) = true := by
  obtain ⟨-, h2, h3⟩ := natToDigitsAux_spec (n + 1) n (by omega)
  simp only [canonicalNat, natToString, Bool.and_eq_true, Bool.not_eq_true']
  constructor
  · cases hd : natToDigitsAux (n + 1) n with
    | nil => exact absurd hd h3
    | cons a l => simp [String.isEmpty, String.mk, hd]
  · exact h2

theorem strVal_natToString (n : Nat) : strVal (natToString n) = (n : Int) := by
  obtain ⟨h1, -, -⟩ := natToDigitsAux_spec (n + 1) n (by omega)
  simp [strVal, natToString, h1]

theorem BigIntJS_natToString (n : Nat) : BigIntJS (natToString n) = some (n : Int) := by
  rw [BigIntJS_canonical (canonicalNat_natToString n), strVal_natToString]

theorem parseIntJS_natToString (n : Nat) : parseIntJS (natToString n) = some (n : Int) := by
  rw [parseIntJS_canonical (canonicalNat_natToString n), strVal_natToString]

theorem BigIntJS_intToString (i : Int) : BigIntJS (intToString i) = some i := by
  by_cases hneg : i < 0
  · obtain ⟨h1, h2, h3⟩ := natToDigitsAux_spec (i.natAbs + 1) i.natAbs (by omega)
    have hps : parseSign ('-' :: natToDigitsAux (i.natAbs + 1) i.natAbs) =
        (true, natToDigitsAux (i.natAbs + 1) i.natAbs) := by simp [parseSign]
    simp only [intToString, hneg, if_true]
    simp [BigIntJS, hps, h1, h2, h3]
    simp [abs_of_neg hneg]
  · simp only [intToString, hneg, if_false]
    rw [BigIntJS_natToString]
    congr 1
    omega

theorem parseIntJS_intToString (i : Int) : parseIntJS (intToString i) = some i := by
  by_cases hneg : i < 0
  · obtain ⟨h1, h2, h3⟩ := natToDigitsAux_spec (i.natAbs + 1) i.natAbs (by omega)
    have hps : parseSign ('-' :: natToDigitsAux (i.natAbs + 1) i.natAbs) =
        (true, natToDigitsAux (i.natAbs + 1) i.natAbs) := by simp [parseSign]
    have htw := takeWhile_of_all (l := natToDigitsAux (i.natAbs + 1) i.natAbs)
      (p := Char.isDigit) h2
    simp only [intToString, hneg, if_true]
    simp [parseIntJS, hps, htw, h1, h3]
    simp [abs_of_neg hneg]
  · simp only [intToString, hneg, if_false]
    rw [parseIntJS_natToString]
    congr 1
    omega


/-- Lowercasing as the kernel-evaluable counterpart of
`String.toLowerCase` in JavaScript (address comparisons are
case-insensitive). -/
def jsToLower (s : String) : String := String.mk (s.data.map Char.toLower)

/-- Split a character list on a separator character. -/
def splitOnCharList (sep : Char) : List Char → List (List Char)
  | [] => [[]]
  | c :: cs =>
    if c = sep then [] :: splitOnCharList sep cs
    else
      match splitOnCharList sep cs with
      | [] => [c] :: []
      | h :: t => (c :: h) :: t

/-- JavaScript `s.split(sep)` for a one-character separator. -/
def jsSplit (s : String) (sep : Char) : List String :=
  (splitOnCharList sep s.data).map String.mk

/-! ## Data model (packages/upto/src/types.ts) and constants (constants.ts) -/

deriving instance DecidableEq for Except

/-- Uniswap Permit2 canonical address (constants.ts). -/
def PERMIT2_ADDRESS : String := "0x000000000022D473030F116dDEE9F6B43aC78BA3"

/-- x402 upto proxy address (constants.ts). -/
def X402_UPTO_PERMIT2_PROXY_ADDRESS : String :=
  "0x4020633461b2895a48930Ff97eE8fCdE8E520002"

/-- Known USDC addresses by CAIP-2 network id (constants.ts). -/
def USDC_ADDRESSES : List (String × String) :=
  [("eip155:8453", "0x833589fCD6eDb6E08f4c7C32D4f71b54bdA02913"),
   ("eip155:84532", "0x036CbD53842c5426634e7929541eC2318f3dCF7e")]

/-- Default token decimals (constants.ts). -/
def USDC_DECIMALS : Nat := 6

/-- Permit2 witness struct binding the payment to a recipient (types.ts). -/
structure Permit2Witness where
  «to» : String
  validAfter : String
  extra : String
deriving DecidableEq

/-- Token permissions pair of the Permit2 authorization (types.ts). -/
structure TokenPermissions where
  token : String
  amount : String
deriving DecidableEq

/-- Permit2 authorization signed by the payer; `amount` is the ceiling
(types.ts). -/
structure Permit2Authorization where
  «from» : String
  permitted : TokenPermissions
  spender : String
  nonce : String
  deadline : String
  witness : Permit2Witness
deriving DecidableEq

/-- The payload sent client → server → facilitator; `settlementAmount` is
set by the server after metering (types.ts). -/
structure UptoPermit2Payload where
  signature : String
  permit2Authorization : Permit2Authorization
  settlementAmount : Option String
deriving DecidableEq

/-- Payment requirements advertised in 402 responses (types.ts). -/
structure UptoPaymentRequirements where
  scheme : String
  network : String
  asset : String
  maxAmount : String
  payTo : String
  maxTimeoutSeconds : Int
deriving DecidableEq

/-- Verification result of the facilitator (types.ts). -/
structure VerifyResult where
  isValid : Bool
  invalidReason : Option String
  payer : Option String
deriving DecidableEq

/-- Settlement result of the facilitator (types.ts). -/
structure SettleResult where
  success : Bool
  txHash : Option String
  settledAmount : Option String
  error : Option String
deriving DecidableEq

/-- The EIP-712 typed message verifyUpto builds before calling the signer:
the wire strings converted to arbitrary-precision integers
(permit2.ts lines 89-102). -/
structure Permit2Message where
  token : String
  amount : Int
  spender : String
  nonce : Int
  deadline : Int
  «to» : String
  validAfter : Int
  extra : String
deriving DecidableEq

/-- Arguments of a `verifyTypedData` call made by the facilitator. -/
structure VerifyTypedDataCall where
  address : String
  chainId : Option Int
  message : Permit2Message
  signature : String
deriving DecidableEq

/-- Arguments of the upto proxy `settle` write (permit2.ts lines 196-218). -/
structure SettleCall where
  permittedToken : String
  permittedAmount : Int
  nonce : Int
  deadline : Int
  amount : Int
  owner : String
  «to» : String
  validAfter : Int
  extra : String
  signature : String
deriving DecidableEq

/-- A transaction receipt as returned by waitForTransactionReceipt. -/
structure TxReceipt where
  reverted : Bool
  transactionHash : String
deriving DecidableEq

/-- Chain interactions a facilitator run can perform; each run returns the
list of those it actually performed, in order. -/
inductive ChainOp where
  | verifySig
  | readAllowance
  | readBalance
  | writeSettle
deriving DecidableEq

/-- Chain-connected signer capability set of the facilitator (types.ts):
each field is an oracle for one remote call, `none` modelling a thrown
error / rejected promise.  `readAllowance token owner spender` and
`readBalance token account` model the two ERC-20 `readContract` calls;
`writeSettle` models `writeContract` followed by
`waitForTransactionReceipt`, returning the tx hash and the receipt. -/
structure FacilitatorSigner where
  verifyTypedData : VerifyTypedDataCall → Option Bool
  readAllowance : String → String → String → Option Int
  readBalance : String → String → Option Int
  writeSettle : SettleCall → Option (String × TxReceipt)

/-- NaN-aware `x <= y`: `parseInt` giving NaN (none) makes the comparison
false, exactly as `NaN <= now` is false in JavaScript. -/
def nanLe : Option Int → Int → Bool
  | some v, y => decide (v ≤ y)
  | none, _ => false

/-- NaN-aware `x > y`: NaN (none) makes the comparison false. -/
def nanGt : Option Int → Int → Bool
  | some v, y => decide (y < v)
  | none, _ => false

/-- Parse CAIP-2 network to chain id (permit2.ts `parseChainId`):
`parseInt(network.split(":")[1])`; a missing second component or a
non-numeric one yields NaN (`none`). -/
def parseChainId (network : String) : Option Int :=
  match jsSplit network ':' with
  | _ :: second :: _ => parseIntJS second
  | _ => none

/-- The typed message construction of verifyUpto (permit2.ts lines 89-102):
every numeric wire string goes through `BigInt`, so a non-numeric string
makes the construction throw (`none`). -/
def mkPermit2Message (auth : Permit2Authorization) : Option Permit2Message :=
  match BigIntJS auth.permitted.amount, BigIntJS auth.nonce,
      BigIntJS auth.deadline, BigIntJS auth.witness.validAfter with
  | some a, some n, some d, some v =>
    some { token := auth.permitted.token, amount := a, spender := auth.spender,
           nonce := n, deadline := d, «to» := auth.witness.«to», validAfter := v,
           extra := auth.witness.extra }
  | _, _, _, _ => none

/-- verifyUpto (permit2.ts lines 43-154).  `now` is
`Math.floor(Date.now() / 1000)`.  The first component is the returned
`VerifyResult`, with `Except.error` modelling an uncaught throw (a
non-numeric string reaching a `BigInt` conversion outside a try block);
the second component is the trace of chain interactions performed. -/
def verifyUpto (signer : FacilitatorSigner) (payload : UptoPermit2Payload)
    (req : UptoPaymentRequirements) (now : Int) :
    Except Unit VerifyResult × List ChainOp :=
  if jsToLower payload.permit2Authorization.spender ≠
      jsToLower X402_UPTO_PERMIT2_PROXY_ADDRESS then
    (Except.ok { isValid := false, invalidReason := some "invalid_spender", payer := none }, [])
  else if jsToLower payload.permit2Authorization.witness.«to» ≠ jsToLower req.payTo then
    (Except.ok { isValid := false, invalidReason := some "invalid_recipient", payer := none }, [])
  else if nanLe (parseIntJS payload.permit2Authorization.deadline) now then
    (Except.ok { isValid := false, invalidReason := some "permit2_deadline_expired", payer := none }, [])
  else if nanGt (parseIntJS payload.permit2Authorization.witness.validAfter) now then
    (Except.ok { isValid := false, invalidReason := some "permit2_not_yet_valid", payer := none }, [])
  else
    match BigIntJS payload.permit2Authorization.permitted.amount,
        BigIntJS req.maxAmount with
    | none, _ => (Except.error (), [])
    | some _, none => (Except.error (), [])
    | some amt, some maxAmt =>
      if amt < maxAmt then
        (Except.ok { isValid := false, invalidReason := some "insufficient_authorized_amount", payer := none }, [])
      else
        match mkPermit2Message payload.permit2Authorization with
        | none => (Except.error (), [])
        | some msg =>
          match signer.verifyTypedData
              { address := payload.permit2Authorization.«from»,
                chainId := parseChainId req.network,
                message := msg, signature := payload.signature } with
          | none =>
            (Except.ok { isValid := false, invalidReason := some "signature_verification_failed", payer := none },
             [ChainOp.verifySig])
          | some false =>
            (Except.ok { isValid := false, invalidReason := some "invalid_permit2_signature", payer := none },
             [ChainOp.verifySig])
          | some true =>
            match signer.readAllowance payload.permit2Authorization.permitted.token
                payload.permit2Authorization.«from» PERMIT2_ADDRESS with
            | none =>
              (Except.ok { isValid := false, invalidReason := some "allowance_check_failed", payer := none },
               [ChainOp.verifySig, ChainOp.readAllowance])
            | some al =>
              if al < amt then
                (Except.ok { isValid := false, invalidReason := some "permit2_allowance_required", payer := none },
                 [ChainOp.verifySig, ChainOp.readAllowance])
              else
                match signer.readBalance payload.permit2Authorization.permitted.token
                    payload.permit2Authorization.«from» with
                | none =>
                  (Except.ok { isValid := false, invalidReason := some "balance_check_failed", payer := none },
                   [ChainOp.verifySig, ChainOp.readAllowance, ChainOp.readBalance])
                | some bal =>
                  if bal < amt then
                    (Except.ok { isValid := false, invalidReason := some "insufficient_balance", payer := none },
                     [ChainOp.verifySig, ChainOp.readAllowance, ChainOp.readBalance])
                  else
                    (Except.ok { isValid := true, invalidReason := none,
                                 payer := some payload.permit2Authorization.«from» },
                     [ChainOp.verifySig, ChainOp.readAllowance, ChainOp.readBalance])

/-- settleUpto (permit2.ts lines 162-237).  The settlement amount is
`payload.settlementAmount ?? permitted.amount`; both it and the ceiling go
through `BigInt` before any other step, so a non-numeric string throws
(`Except.error`).  The trace lists the chain interactions performed,
including those of the embedded re-verification. -/
def settleUpto (signer : FacilitatorSigner) (payload : UptoPermit2Payload)
    (req : UptoPaymentRequirements) (now : Int) :
    Except Unit SettleResult × List ChainOp :=
  match BigIntJS (payload.settlementAmount.getD payload.permit2Authorization.permitted.amount),
      BigIntJS payload.permit2Authorization.permitted.amount with
  | none, _ => (Except.error (), [])
  | some _, none => (Except.error (), [])
  | some s, some a =>
    if a < s then
      (Except.ok { success := false, txHash := none, settledAmount := none,
                   error := some "settlement_exceeds_authorization" }, [])
    else if s = 0 then
      (Except.ok { success := true, txHash := none, settledAmount := some "0",
                   error := none }, [])
    else
      match verifyUpto signer payload req now with
      | (Except.error e, tr) => (Except.error e, tr)
      | (Except.ok v, tr) =>
        if v.isValid = false then
          (Except.ok { success := false, txHash := none, settledAmount := none,
                       error := v.invalidReason }, tr)
        else
          match mkPermit2Message payload.permit2Authorization with
          | none =>
            (Except.ok { success := false, txHash := none, settledAmount := none,
                         error := some "settlement_failed" }, tr)
          | some msg =>
            match signer.writeSettle
                { permittedToken := msg.token, permittedAmount := msg.amount,
                  nonce := msg.nonce, deadline := msg.deadline, amount := s,
                  owner := payload.permit2Authorization.«from»,
                  «to» := msg.«to», validAfter := msg.validAfter, extra := msg.extra,
                  signature := payload.signature } with
            | none =>
              (Except.ok { success := false, txHash := none, settledAmount := none,
                           error := some "settlement_failed" },
               tr ++ [ChainOp.writeSettle])
            | some (txHash, receipt) =>
              if receipt.reverted then
                (Except.ok { success := false, txHash := some txHash,
                             settledAmount := none, error := some "transaction_reverted" },
                 tr ++ [ChainOp.writeSettle])
              else
                (Except.ok { success := true, txHash := some receipt.transactionHash,
                             settledAmount := some (payload.settlementAmount.getD
                               payload.permit2Authorization.permitted.amount),
                             error := none },
                 tr ++ [ChainOp.writeSettle])

/-! ## Client builder (packages/upto/src/client/scheme.ts) -/

/-- createUptoPermit2Payload (client/scheme.ts lines 89-143).  External
effects are parameters: `signerAddress` is `signer.address`, `signature`
the value returned by `signer.signTypedData`, `now` is
`Math.floor(Date.now() / 1000)` and `nonce` the 48-bit random draw.
The CAIP-2 network must split on ":" into exactly two parts with left part
"eip155", otherwise the builder throws (`Except.error`).  All integer
fields are serialized back to decimal strings. -/
def createUptoPermit2Payload (signerAddress signature : String)
    (req : UptoPaymentRequirements) (now : Int) (nonce : Nat) :
    Except Unit UptoPermit2Payload :=
  if (jsSplit req.network ':').length ≠ 2 ∨
      (jsSplit req.network ':').headD "" ≠ "eip155" then
    Except.error ()
  else
    Except.ok
      { signature := signature,
        permit2Authorization :=
          { «from» := signerAddress,
            permitted := { token := req.asset, amount := req.maxAmount },
            spender := X402_UPTO_PERMIT2_PROXY_ADDRESS,
            nonce := natToString nonce,
            deadline := intToString (now + req.maxTimeoutSeconds),
            witness := { «to» := req.payTo,
                         validAfter := intToString (now - 60),
                         extra := "0x" } },
        settlementAmount := none }

/-! ## Price parsing and requirements building (server scheme and the Hono
middleware of facilitator/src).  parseFloat / Math.round arithmetic is
modelled exactly over rationals represented as scaled integers; IEEE-754
double rounding is not modelled (immaterial at the magnitudes involved). -/

/-- JavaScript `parseFloat` on the cleaned price string, restricted to
plain decimal notation (exponent notation never occurs in price strings):
an optional sign, leading digits, an optional fraction.  Returns
`(negative, integer part, fraction digits value, fraction length)`, or
`none` for NaN. -/
def parseFloatJS (l : List Char) : Option (Bool × Nat × Nat × Nat) :=
  if ((parseSign l).2.takeWhile Char.isDigit = [] ∧
      (match (parseSign l).2.drop ((parseSign l).2.takeWhile Char.isDigit).length with
       | '.' :: r => r.takeWhile Char.isDigit
       | _ => []) = []) then none
  else
    some ((parseSign l).1,
      digitsToNat ((parseSign l).2.takeWhile Char.isDigit),
      digitsToNat
        (match (parseSign l).2.drop ((parseSign l).2.takeWhile Char.isDigit).length with
         | '.' :: r => r.takeWhile Char.isDigit
         | _ => []),
      (match (parseSign l).2.drop ((parseSign l).2.takeWhile Char.isDigit).length with
       | '.' :: r => r.takeWhile Char.isDigit
       | _ => []).length)

/-- `Math.round((i + f / 10^k) * 10^USDC_DECIMALS)` computed exactly:
round half up over the common denominator `10^k`. -/
def jsRoundScaled (i f k : Nat) : Nat :=
  (2 * (i * 10 ^ USDC_DECIMALS * 10 ^ k + f * 10 ^ USDC_DECIMALS) + 10 ^ k) /
    (2 * 10 ^ k)

/-- parseUsdcAmount (server scheme, part of the upto package): strip `$`
and `,`, `parseFloat`, reject NaN and negative amounts by throwing, then
`Math.round(amount * 10 ** USDC_DECIMALS).toString()`. -/
def parseUsdcAmount (price : String) : Except Unit String :=
  match parseFloatJS (price.data.filter (fun c => ¬(c = '$' ∨ c = ','))) with
  | none => Except.error ()
  | some (neg, i, f, k) =>
    if neg ∧ (0 < i ∨ 0 < f) then Except.error ()
    else Except.ok (natToString (jsRoundScaled i f k))

/-- Route configuration taken by the server scheme class
(UptoRouteConfig in the server scheme source). -/
structure UptoRouteConfig where
  maxPrice : String
  network : String
  payTo : String
  asset : Option String
  maxTimeoutSeconds : Option Int
deriving DecidableEq

/-- UptoEvmServerScheme.buildRequirements: `config.asset ?? USDC_ADDRESSES[network]`,
throwing when the result is nullish (or the falsy empty string), then the
requirements record with `parseUsdcAmount(maxPrice)` and default timeout
300. -/
def UptoEvmServerScheme.buildRequirements (config : UptoRouteConfig) :
    Except Unit UptoPaymentRequirements :=
  match (match config.asset with
         | some a => some a
         | none => List.lookup config.network USDC_ADDRESSES) with
  | none => Except.error ()
  | some asset =>
    if asset = "" then Except.error ()
    else
      match parseUsdcAmount config.maxPrice with
      | Except.error e => Except.error e
      | Except.ok maxAmt =>
        Except.ok { scheme := "upto", network := config.network, asset := asset,
                    maxAmount := maxAmt, payTo := config.payTo,
                    maxTimeoutSeconds := config.maxTimeoutSeconds.getD 300 }

/-! ## Hono middleware (facilitator/src, uptoPaymentMiddleware) -/

/-- Route table entry of the middleware (UptoRouteDefinition); the `meter`
function is external and not needed by the gating phase modelled here. -/
structure UptoRouteDefinition where
  maxPrice : String
  network : String
  payTo : String
  asset : Option String
  maxTimeoutSeconds : Option Int
  description : Option String
  mimeType : Option String
deriving DecidableEq

/-- JavaScript nullish coalescing on options: `a ?? b`. -/
def nullish {α : Type} (a b : Option α) : Option α :=
  match a with
  | some x => some x
  | none => b

/-- The payment requirements the middleware builds inline per request
(uptoPaymentMiddleware, the `requirements` object): note the asset default
is the fixed literal `0x036CbD…` (Base Sepolia USDC), not a per-network
lookup. -/
def mwBuildRequirements (rc : UptoRouteDefinition) :
    Except Unit UptoPaymentRequirements :=
  match parseUsdcAmount rc.maxPrice with
  | Except.error e => Except.error e
  | Except.ok maxAmt =>
    Except.ok { scheme := "upto", network := rc.network,
                asset := rc.asset.getD "0x036CbD53842c5426634e7929541eC2318f3dCF7e",
                maxAmount := maxAmt, payTo := rc.payTo,
                maxTimeoutSeconds := rc.maxTimeoutSeconds.getD 300 }

/-- JSON body of a middleware error reply. -/
structure MwErrorBody where
  error : String
  reason : Option String
  accepts : List UptoPaymentRequirements
  description : Option String
  mimeType : Option String
deriving DecidableEq

/-- Outcome of the gating phase of the middleware: pass the request
through (no route match), reply with a status and body, or proceed to the
route handler with the verified payload and payer. -/
inductive MwOutcome where
  | passThrough
  | respond (status : Nat) (body : MwErrorBody)
  | proceed (payload : UptoPermit2Payload) (payer : Option String)
deriving DecidableEq

/-- The gating phase of uptoPaymentMiddleware, up to invoking the route
handler.  External effects are parameters: the two request headers,
`decodePayload` for `JSON.parse(atob(header))` (`none` = throw), and
`verifyReply` for the facilitator `/verify` round trip (`none` = fetch
threw).  `Except.error` models a throw escaping the middleware (only
`parseUsdcAmount` can throw here). -/
def uptoPaymentMiddleware (routes : List (String × UptoRouteDefinition))
    (method path : String) (xPayment paymentSignature : Option String)
    (decodePayload : String → Option UptoPermit2Payload)
    (verifyReply : Option VerifyResult) : Except Unit MwOutcome :=
  match List.lookup (method ++ " " ++ path) routes with
  | none => Except.ok MwOutcome.passThrough
  | some rc =>
    match mwBuildRequirements rc with
    | Except.error e => Except.error e
    | Except.ok requirements =>
      match nullish xPayment paymentSignature with
      | none =>
        Except.ok (MwOutcome.respond 402
          { error := "Payment Required", reason := none,
            accepts := [requirements], description := rc.description,
            mimeType := rc.mimeType })
      | some h =>
        match decodePayload h with
        | none =>
          Except.ok (MwOutcome.respond 400
            { error := "Invalid payment payload", reason := none,
              accepts := [], description := none, mimeType := none })
        | some payload =>
          match verifyReply with
          | none =>
            Except.ok (MwOutcome.respond 503
              { error := "Facilitator unavailable", reason := none,
                accepts := [], description := none, mimeType := none })
          | some v =>
            if v.isValid then Except.ok (MwOutcome.proceed payload v.payer)
            else
              Except.ok (MwOutcome.respond
                (if v.invalidReason = some "permit2_allowance_required" then 412 else 402)
                { error := "Payment verification failed",
                  reason := v.invalidReason,
                  accepts := [requirements], description := none,
                  mimeType := none })

/-! ## Audit store (facilitator db: payments table, recordVerification) -/

/-- The record argument of recordVerification (PaymentRecord). -/
structure PaymentRecord where
  payer : String
  recipient : String
  token : String
  authorized_amount : String
  settled_amount : Option String
  nonce : String
  tx_hash : Option String
  status : String
  network : String
deriving DecidableEq

/-- A row of the `payments` table (initDb schema; the autoincrement id and
timestamp columns are immaterial to the claims and omitted). -/
structure PaymentRow where
  payer : String
  recipient : String
  token : String
  authorized_amount : String
  settled_amount : Option String
  nonce : String
  tx_hash : Option String
  status : String
  network : String
deriving DecidableEq

/-- recordVerification: `INSERT OR IGNORE INTO payments (...)` with the
schema's `UNIQUE` constraint on `nonce`: when a row with the same nonce
already exists the statement is a no-op, otherwise the listed columns are
inserted with `status = 'verified'` and the unlisted nullable columns
NULL. -/
def recordVerification (db : List PaymentRow) (record : PaymentRecord) :
    List PaymentRow :=
  if db.any (fun row => row.nonce == record.nonce) then db
  else
    db ++ [{ payer := record.payer, recipient := record.recipient,
             token := record.token,
             authorized_amount := record.authorized_amount,
             settled_amount := none, nonce := record.nonce, tx_hash := none,
             status := "verified", network := record.network }]

/-- Number of rows carrying a given nonce. -/
def nonceCount (db : List PaymentRow) (n : String) : Nat :=
  (db.filter (fun row => row.nonce == n)).length

/-! ## Claims about the settler -/

/-- C1: whenever settleUpto returns success, the returned settledAmount is
a decimal string whose integer value is at most the value of
`payload.permit2Authorization.permitted.amount`, and it is either "0" or
the effective settlement amount (the metered `settlementAmount`, or the
ceiling itself when that is absent). -/
theorem settleUpto_settled_le_authorized
    (signer : FacilitatorSigner) (payload : UptoPermit2Payload)
    (req : UptoPaymentRequirements) (now : Int) (r : SettleResult)
    (h : (settleUpto signer payload req now).1 = Except.ok r)
    (hs : r.success = true) :
    ∃ s v a, r.settledAmount = some s ∧ BigIntJS s = some v ∧
      BigIntJS payload.permit2Authorization.permitted.amount = some a ∧
      v ≤ a ∧
      (s = "0" ∨
        s = payload.settlementAmount.getD
              payload.permit2Authorization.permitted.amount) := by
  unfold settleUpto at h
  rcases hA : BigIntJS (payload.settlementAmount.getD
      payload.permit2Authorization.permitted.amount) with _ | s0
  · rw [hA] at h; simp at h
  rcases hB : BigIntJS payload.permit2Authorization.permitted.amount with _ | a0
  · rw [hA, hB] at h; simp at h
  rw [hA, hB] at h
  dsimp only at h
  split_ifs at h with hgt hz
  · cases h; simp at hs
  · cases h
    exact ⟨"0", 0, a0, rfl, by decide, rfl, by omega, Or.inl rfl⟩
  · rcases hv : verifyUpto signer payload req now with ⟨vres, vtr⟩
    rcases vres with e | v
    · rw [hv] at h; simp at h
    · rw [hv] at h
      dsimp only at h
      split_ifs at h with hvalid
      · cases h; simp at hs
      · rcases hm : mkPermit2Message payload.permit2Authorization with _ | msg
        · rw [hm] at h; dsimp only at h; cases h; simp at hs
        · rw [hm] at h; dsimp only at h
          rcases hw : signer.writeSettle
              { permittedToken := msg.token, permittedAmount := msg.amount,
                nonce := msg.nonce, deadline := msg.deadline, amount := s0,
                owner := payload.permit2Authorization.«from»,
                «to» := msg.«to», validAfter := msg.validAfter,
                extra := msg.extra, signature := payload.signature }
            with _ | ⟨txh, receipt⟩
          · rw [hw] at h; dsimp only at h; cases h; simp at hs
          · rw [hw] at h; dsimp only at h
            split_ifs at h with hrev
            · cases h; simp at hs
            · cases h
              exact ⟨payload.settlementAmount.getD
                  payload.permit2Authorization.permitted.amount,
                s0, a0, rfl, hA, rfl, by omega, Or.inr rfl⟩

def c1sig : FacilitatorSigner :=
  { verifyTypedData := fun _ => none, readAllowance := fun _ _ _ => none,
    readBalance := fun _ _ => none, writeSettle := fun _ => none }

def c1req : UptoPaymentRequirements :=
  { scheme := "upto", network := "eip155:84532", asset := "0xT",
    maxAmount := "5", payTo := "0xR", maxTimeoutSeconds := 300 }

def c1payload : UptoPermit2Payload :=
  { signature := "0xS",
    permit2Authorization :=
      { «from» := "0xF", permitted := { token := "0xT", amount := "5" },
        spender := X402_UPTO_PERMIT2_PROXY_ADDRESS, nonce := "1",
        deadline := "100",
        witness := { «to» := "0xR", validAfter := "0", extra := "0x" } },
    settlementAmount := some "0" }

/-- Witness for C1 at a concrete zero-amount settlement. -/
theorem settleUpto_settled_le_authorized_witness :
    (settleUpto c1sig c1payload c1req 50).1 =
      Except.ok { success := true, txHash := none, settledAmount := some "0",
                  error := none }
    ∧ ({ success := true, txHash := none, settledAmount := some "0",
         error := none } : SettleResult).success = true
    ∧ ∃ s v a,
        ({ success := true, txHash := none, settledAmount := some "0",
           error := none } : SettleResult).settledAmount = some s ∧
        BigIntJS s = some v ∧
        BigIntJS c1payload.permit2Authorization.permitted.amount = some a ∧
        v ≤ a ∧
        (s = "0" ∨
          s = c1payload.settlementAmount.getD
                c1payload.permit2Authorization.permitted.amount) :=
  ⟨by decide, by decide,
   settleUpto_settled_le_authorized c1sig c1payload c1req 50 _ (by decide) (by decide)⟩

/-- C3: when the effective settlement amount strictly exceeds the
authorized ceiling, settleUpto returns the
`settlement_exceeds_authorization` failure and performs no chain
interaction at all (empty trace: no verification, no read, no write). -/
theorem settleUpto_exceeds_authorization_no_chain
    (signer : FacilitatorSigner) (payload : UptoPermit2Payload)
    (req : UptoPaymentRequirements) (now : Int) (s a : Int)
    (hA : BigIntJS (payload.settlementAmount.getD
        payload.permit2Authorization.permitted.amount) = some s)
    (hB : BigIntJS payload.permit2Authorization.permitted.amount = some a)
    (hgt : a < s) :
    settleUpto signer payload req now =
      (Except.ok { success := false, txHash := none, settledAmount := none,
                   error := some "settlement_exceeds_authorization" }, []) := by
  unfold settleUpto
  rw [hA, hB]
  dsimp only
  rw [if_pos hgt]

def c3sig : FacilitatorSigner :=
  { verifyTypedData := fun _ => some true, readAllowance := fun _ _ _ => some 100,
    readBalance := fun _ _ => some 100, writeSettle := fun _ => none }

def c3payload : UptoPermit2Payload :=
  { signature := "0xS",
    permit2Authorization :=
      { «from» := "0xF", permitted := { token := "0xT", amount := "5" },
        spender := X402_UPTO_PERMIT2_PROXY_ADDRESS, nonce := "1",
        deadline := "100",
        witness := { «to» := "0xR", validAfter := "0", extra := "0x" } },
    settlementAmount := some "6" }

/-- Witness for C3 at a concrete over-authorized settlement. -/
theorem settleUpto_exceeds_authorization_no_chain_witness :
    BigIntJS (c3payload.settlementAmount.getD
        c3payload.permit2Authorization.permitted.amount) = some 6
    ∧ BigIntJS c3payload.permit2Authorization.permitted.amount = some 5
    ∧ (5 : Int) < 6
    ∧ settleUpto c3sig c3payload c1req 50 =
        (Except.ok { success := false, txHash := none, settledAmount := none,
                     error := some "settlement_exceeds_authorization" }, []) :=
  ⟨by decide, by decide, by decide,
   settleUpto_exceeds_authorization_no_chain c3sig c3payload c1req 50 6 5
     (by decide) (by decide) (by decide)⟩

/-- C4: when the effective settlement amount is zero (and does not exceed
the ceiling), settleUpto returns success with settledAmount "0" and
performs no chain interaction (empty trace: no re-verification, no
write). -/
theorem settleUpto_zero_elision
    (signer : FacilitatorSigner) (payload : UptoPermit2Payload)
    (req : UptoPaymentRequirements) (now : Int) (a : Int)
    (hA : BigIntJS (payload.settlementAmount.getD
        payload.permit2Authorization.permitted.amount) = some 0)
    (hB : BigIntJS payload.permit2Authorization.permitted.amount = some a)
    (hle : 0 ≤ a) :
    settleUpto signer payload req now =
      (Except.ok { success := true, txHash := none, settledAmount := some "0",
                   error := none }, []) := by
  unfold settleUpto
  rw [hA, hB]
  dsimp only
  rw [if_neg (by omega), if_pos rfl]

/-- Witness for C4 at a concrete zero-metered settlement. -/
theorem settleUpto_zero_elision_witness :
    BigIntJS (c1payload.settlementAmount.getD
        c1payload.permit2Authorization.permitted.amount) = some 0
    ∧ BigIntJS c1payload.permit2Authorization.permitted.amount = some 5
    ∧ (0 : Int) ≤ 5
    ∧ settleUpto c3sig c1payload c1req 50 =
        (Except.ok { success := true, txHash := none, settledAmount := some "0",
                     error := none }, []) :=
  ⟨by decide, by decide, by decide,
   settleUpto_zero_elision c3sig c1payload c1req 50 5 (by decide) (by decide)
     (by decide)⟩

/-! ## Claims about the verifier -/

/-- The verifyTypedData call verifyUpto makes, expressed through the
canonical integer values of the wire strings (equal to the call actually
made whenever those strings are canonical decimal). -/
def verifyCallOf (payload : UptoPermit2Payload) (req : UptoPaymentRequirements) :
    VerifyTypedDataCall :=
  { address := payload.permit2Authorization.«from»,
    chainId := parseChainId req.network,
    message := { token := payload.permit2Authorization.permitted.token,
                 amount := strVal payload.permit2Authorization.permitted.amount,
                 spender := payload.permit2Authorization.spender,
                 nonce := strVal payload.permit2Authorization.nonce,
                 deadline := strVal payload.permit2Authorization.deadline,
                 «to» := payload.permit2Authorization.witness.«to»,
                 validAfter := strVal payload.permit2Authorization.witness.validAfter,
                 extra := payload.permit2Authorization.witness.extra },
    signature := payload.signature }

/-- Reference definition written from the specification's words (the
ordered-checks table of the verifier, first failure wins): spender, then
recipient, then `deadline > now`, then `validAfter ≤ now`, then
`permitted.amount ≥ maxAmount`, then the signature, then
`allowance ≥ permitted.amount`, then `balance ≥ permitted.amount`; all
checks passing yields `{ isValid := true, payer := from }`.  The oracle
outcomes (signature, allowance, balance, with `none` for a signer error)
are taken as parameters. -/
def verifyOrderedSpec (spenderOk recipientOk : Bool)
    (deadline validAfter amt maxAmt now : Int)
    (sigResult : Option Bool) (allowance balance : Option Int)
    (payer : String) : VerifyResult :=
  if spenderOk = false then
    { isValid := false, invalidReason := some "invalid_spender", payer := none }
  else if recipientOk = false then
    { isValid := false, invalidReason := some "invalid_recipient", payer := none }
  else if ¬(deadline > now) then
    { isValid := false, invalidReason := some "permit2_deadline_expired", payer := none }
  else if ¬(validAfter ≤ now) then
    { isValid := false, invalidReason := some "permit2_not_yet_valid", payer := none }
  else if ¬(amt ≥ maxAmt) then
    { isValid := false, invalidReason := some "insufficient_authorized_amount", payer := none }
  else
    match sigResult with
    | none =>
      { isValid := false, invalidReason := some "signature_verification_failed", payer := none }
    | some false =>
      { isValid := false, invalidReason := some "invalid_permit2_signature", payer := none }
    | some true =>
      match allowance with
      | none =>
        { isValid := false, invalidReason := some "allowance_check_failed", payer := none }
      | some al =>
        if ¬(al ≥ amt) then
          { isValid := false, invalidReason := some "permit2_allowance_required", payer := none }
        else
          match balance with
          | none =>
            { isValid := false, invalidReason := some "balance_check_failed", payer := none }
          | some b =>
            if ¬(b ≥ amt) then
              { isValid := false, invalidReason := some "insufficient_balance", payer := none }
            else { isValid := true, invalidReason := none, payer := some payer }

/-- C2: on payloads whose numeric wire strings are canonical decimal,
verifyUpto returns exactly the failure tag of the first failing check in
the spec's fixed order (the reference definition `verifyOrderedSpec`
instantiated with the payload's values and the signer's oracle answers),
returning `{ isValid := true, payer := from }` when every check passes;
and no `readContract` chain read is performed unless the five local checks
and the signature check all pass. -/
theorem verifyUpto_ordered_checks
    (signer : FacilitatorSigner) (payload : UptoPermit2Payload)
    (req : UptoPaymentRequirements) (now : Int)
    (hdl : canonicalNat payload.permit2Authorization.deadline = true)
    (hva : canonicalNat payload.permit2Authorization.witness.validAfter = true)
    (ham : canonicalNat payload.permit2Authorization.permitted.amount = true)
    (hmx : canonicalNat req.maxAmount = true)
    (hnc : canonicalNat payload.permit2Authorization.nonce = true) :
    (verifyUpto signer payload req now).1 =
      Except.ok (verifyOrderedSpec
        (jsToLower payload.permit2Authorization.spender ==
          jsToLower X402_UPTO_PERMIT2_PROXY_ADDRESS)
        (jsToLower payload.permit2Authorization.witness.«to» == jsToLower req.payTo)
        (strVal payload.permit2Authorization.deadline)
        (strVal payload.permit2Authorization.witness.validAfter)
        (strVal payload.permit2Authorization.permitted.amount)
        (strVal req.maxAmount) now
        (signer.verifyTypedData (verifyCallOf payload req))
        (signer.readAllowance payload.permit2Authorization.permitted.token
          payload.permit2Authorization.«from» PERMIT2_ADDRESS)
        (signer.readBalance payload.permit2Authorization.permitted.token
          payload.permit2Authorization.«from»)
        payload.permit2Authorization.«from»)
    ∧ ((ChainOp.readAllowance ∈ (verifyUpto signer payload req now).2 ∨
        ChainOp.readBalance ∈ (verifyUpto signer payload req now).2) →
        jsToLower payload.permit2Authorization.spender =
          jsToLower X402_UPTO_PERMIT2_PROXY_ADDRESS
        ∧ jsToLower payload.permit2Authorization.witness.«to» = jsToLower req.payTo
        ∧ now < strVal payload.permit2Authorization.deadline
        ∧ strVal payload.permit2Authorization.witness.validAfter ≤ now
        ∧ strVal req.maxAmount ≤ strVal payload.permit2Authorization.permitted.amount
        ∧ signer.verifyTypedData (verifyCallOf payload req) = some true) := by
  have hdl1 := parseIntJS_canonical hdl
  have hva1 := parseIntJS_canonical hva
  have ham2 := BigIntJS_canonical ham
  have hmx2 := BigIntJS_canonical hmx
  have hmsg : mkPermit2Message payload.permit2Authorization =
      some (verifyCallOf payload req).message := by
    unfold mkPermit2Message
    rw [BigIntJS_canonical ham, BigIntJS_canonical hnc, BigIntJS_canonical hdl,
      BigIntJS_canonical hva]
    rfl
  have hcall : ({ address := payload.permit2Authorization.«from»,
                  chainId := parseChainId req.network,
                  message := (verifyCallOf payload req).message,
                  signature := payload.signature } : VerifyTypedDataCall) =
      verifyCallOf payload req := rfl
  unfold verifyUpto
  rw [hdl1, hva1, ham2, hmx2, hmsg]
  dsimp only
  rw [hcall]
  by_cases hsp : jsToLower payload.permit2Authorization.spender =
      jsToLower X402_UPTO_PERMIT2_PROXY_ADDRESS
  case neg =>
    simp [verifyOrderedSpec, hsp] <;> omega
  case pos =>
  by_cases hrc : jsToLower payload.permit2Authorization.witness.«to» =
      jsToLower req.payTo
  case neg =>
    simp [verifyOrderedSpec, hsp, hrc] <;> omega
  case pos =>
  by_cases hdle : strVal payload.permit2Authorization.deadline ≤ now
  case pos =>
    simp [verifyOrderedSpec, hsp, hrc, nanLe, hdle, not_lt] <;> omega
  case neg =>
  by_cases hvaf : now < strVal payload.permit2Authorization.witness.validAfter
  case pos =>
    simp [verifyOrderedSpec, hsp, hrc, nanLe, nanGt, hdle, hvaf, not_lt,
      not_le] <;> omega
  case neg =>
  by_cases hamt : strVal payload.permit2Authorization.permitted.amount <
      strVal req.maxAmount
  case pos =>
    simp [verifyOrderedSpec, hsp, hrc, nanLe, nanGt, hdle, hvaf, hamt, not_lt,
      not_le, ge_iff_le] <;> omega
  case neg =>
  rcases hsig : signer.verifyTypedData (verifyCallOf payload req) with _ | b
  · simp [verifyOrderedSpec, hsp, hrc, nanLe, nanGt, hdle, hvaf, hamt, not_lt,
      not_le, ge_iff_le] <;> omega
  rcases b with _ | _
  · simp [verifyOrderedSpec, hsp, hrc, nanLe, nanGt, hdle, hvaf, hamt, not_lt,
      not_le, ge_iff_le] <;> omega
  rcases hal : signer.readAllowance payload.permit2Authorization.permitted.token
      payload.permit2Authorization.«from» PERMIT2_ADDRESS with _ | al
  · simp [verifyOrderedSpec, hsp, hrc, nanLe, nanGt, hdle, hvaf, hamt, not_lt,
      not_le, ge_iff_le, hsig] <;> omega
  by_cases hale : al < strVal payload.permit2Authorization.permitted.amount
  case pos =>
    simp [verifyOrderedSpec, hsp, hrc, nanLe, nanGt, hdle, hvaf, hamt, hale,
      not_lt, not_le, ge_iff_le, hsig] <;> omega
  case neg =>
  rcases hbal : signer.readBalance payload.permit2Authorization.permitted.token
      payload.permit2Authorization.«from» with _ | bal
  · simp [verifyOrderedSpec, hsp, hrc, nanLe, nanGt, hdle, hvaf, hamt, hale,
      not_lt, not_le, ge_iff_le, hsig] <;> omega
  by_cases hbale : bal < strVal payload.permit2Authorization.permitted.amount
  case pos =>
    simp [verifyOrderedSpec, hsp, hrc, nanLe, nanGt, hdle, hvaf, hamt, hale,
      hbale, not_lt, not_le, ge_iff_le, hsig] <;> omega
  case neg =>
    simp [verifyOrderedSpec, hsp, hrc, nanLe, nanGt, hdle, hvaf, hamt, hale,
      hbale, not_lt, not_le, ge_iff_le, hsig] <;> omega

def c2sig : FacilitatorSigner :=
  { verifyTypedData := fun _ => some true,
    readAllowance := fun _ _ _ => some 2000000,
    readBalance := fun _ _ => some 2000000, writeSettle := fun _ => none }

def c2req : UptoPaymentRequirements :=
  { scheme := "upto", network := "eip155:84532", asset := "0xT",
    maxAmount := "1000000", payTo := "0xR", maxTimeoutSeconds := 300 }

def c2payload : UptoPermit2Payload :=
  { signature := "0xS",
    permit2Authorization :=
      { «from» := "0xF", permitted := { token := "0xT", amount := "1000000" },
        spender := X402_UPTO_PERMIT2_PROXY_ADDRESS, nonce := "42",
        deadline := "1300",
        witness := { «to» := "0xR", validAfter := "940", extra := "0x" } },
    settlementAmount := none }

/-- Witness for C2 at a concrete fully-passing payload. -/
theorem verifyUpto_ordered_checks_witness :
    canonicalNat c2payload.permit2Authorization.deadline = true
    ∧ canonicalNat c2payload.permit2Authorization.witness.validAfter = true
    ∧ canonicalNat c2payload.permit2Authorization.permitted.amount = true
    ∧ canonicalNat c2req.maxAmount = true
    ∧ canonicalNat c2payload.permit2Authorization.nonce = true
    ∧ ((verifyUpto c2sig c2payload c2req 1000).1 =
        Except.ok (verifyOrderedSpec
          (jsToLower c2payload.permit2Authorization.spender ==
            jsToLower X402_UPTO_PERMIT2_PROXY_ADDRESS)
          (jsToLower c2payload.permit2Authorization.witness.«to» ==
            jsToLower c2req.payTo)
          (strVal c2payload.permit2Authorization.deadline)
          (strVal c2payload.permit2Authorization.witness.validAfter)
          (strVal c2payload.permit2Authorization.permitted.amount)
          (strVal c2req.maxAmount) 1000
          (c2sig.verifyTypedData (verifyCallOf c2payload c2req))
          (c2sig.readAllowance c2payload.permit2Authorization.permitted.token
            c2payload.permit2Authorization.«from» PERMIT2_ADDRESS)
          (c2sig.readBalance c2payload.permit2Authorization.permitted.token
            c2payload.permit2Authorization.«from»)
          c2payload.permit2Authorization.«from»)
      ∧ ((ChainOp.readAllowance ∈ (verifyUpto c2sig c2payload c2req 1000).2 ∨
          ChainOp.readBalance ∈ (verifyUpto c2sig c2payload c2req 1000).2) →
          jsToLower c2payload.permit2Authorization.spender =
            jsToLower X402_UPTO_PERMIT2_PROXY_ADDRESS
          ∧ jsToLower c2payload.permit2Authorization.witness.«to» =
              jsToLower c2req.payTo
          ∧ 1000 < strVal c2payload.permit2Authorization.deadline
          ∧ strVal c2payload.permit2Authorization.witness.validAfter ≤ 1000
          ∧ strVal c2req.maxAmount ≤
              strVal c2payload.permit2Authorization.permitted.amount
          ∧ c2sig.verifyTypedData (verifyCallOf c2payload c2req) = some true)) :=
  ⟨by decide, by decide, by decide, by decide, by decide,
   verifyUpto_ordered_checks c2sig c2payload c2req 1000 (by decide) (by decide)
     (by decide) (by decide) (by decide)⟩

theorem verifyUpto_ok_reason_source (signer : FacilitatorSigner)
    (payload : UptoPermit2Payload) (req : UptoPaymentRequirements) (now : Int)
    (r : VerifyResult)
    (h : (verifyUpto signer payload req now).1 = Except.ok r) :
    (r.invalidReason = some "permit2_deadline_expired" →
      nanLe (parseIntJS payload.permit2Authorization.deadline) now = true)
    ∧ (r.invalidReason = some "permit2_not_yet_valid" →
      nanGt (parseIntJS payload.permit2Authorization.witness.validAfter) now = true) := by
  unfold verifyUpto at h
  split_ifs at h with h1 h2 h3 h4
  · cases h; constructor <;> intro hr <;> simp at hr
  · cases h; constructor <;> intro hr <;> simp at hr
  · cases h; exact ⟨fun _ => h3, fun hr => by simp at hr⟩
  · cases h; exact ⟨fun hr => by simp at hr, fun _ => h4⟩
  · rcases hA : BigIntJS payload.permit2Authorization.permitted.amount with _ | amt
    · rw [hA] at h; simp at h
    rcases hB : BigIntJS req.maxAmount with _ | mx
    · rw [hA, hB] at h; simp at h
    rw [hA, hB] at h
    dsimp only at h
    split_ifs at h with h5
    · cases h; constructor <;> intro hr <;> simp at hr
    rcases hm : mkPermit2Message payload.permit2Authorization with _ | msg
    · rw [hm] at h; simp at h
    rw [hm] at h
    dsimp only at h
    rcases hsg : signer.verifyTypedData
        { address := payload.permit2Authorization.«from»,
          chainId := parseChainId req.network, message := msg,
          signature := payload.signature } with _ | b
    · rw [hsg] at h; dsimp only at h
      cases h; constructor <;> intro hr <;> simp at hr
    rcases b with _ | _
    · rw [hsg] at h; dsimp only at h
      cases h; constructor <;> intro hr <;> simp at hr
    rw [hsg] at h
    dsimp only at h
    rcases hal : signer.readAllowance payload.permit2Authorization.permitted.token
        payload.permit2Authorization.«from» PERMIT2_ADDRESS with _ | al
    · rw [hal] at h; dsimp only at h
      cases h; constructor <;> intro hr <;> simp at hr
    rw [hal] at h
    dsimp only at h
    split_ifs at h with h6
    · cases h; constructor <;> intro hr <;> simp at hr
    rcases hbl : signer.readBalance payload.permit2Authorization.permitted.token
        payload.permit2Authorization.«from» with _ | bl
    · rw [hbl] at h; dsimp only at h
      cases h; constructor <;> intro hr <;> simp at hr
    rw [hbl] at h
    dsimp only at h
    split_ifs at h with h7
    · cases h; constructor <;> intro hr <;> simp at hr
    · cases h; constructor <;> intro hr <;> simp at hr

/-- C8: at the time boundaries of verification, for payloads passing the
spender and recipient checks, a deadline exactly equal to `now` fails with
`permit2_deadline_expired` (the comparison is `<=`), while a
`witness.validAfter` exactly equal to `now` passes the validAfter check:
the result is never the `permit2_not_yet_valid` failure (rejection needs
strictly greater). -/
theorem verifyUpto_time_boundaries :
    (∀ (signer : FacilitatorSigner) (payload : UptoPermit2Payload)
        (req : UptoPaymentRequirements) (now : Int),
      jsToLower payload.permit2Authorization.spender =
        jsToLower X402_UPTO_PERMIT2_PROXY_ADDRESS →
      jsToLower payload.permit2Authorization.witness.«to» = jsToLower req.payTo →
      parseIntJS payload.permit2Authorization.deadline = some now →
      (verifyUpto signer payload req now).1 =
        Except.ok { isValid := false,
                    invalidReason := some "permit2_deadline_expired",
                    payer := none })
    ∧ (∀ (signer : FacilitatorSigner) (payload : UptoPermit2Payload)
        (req : UptoPaymentRequirements) (now : Int) (r : VerifyResult),
      parseIntJS payload.permit2Authorization.witness.validAfter = some now →
      (verifyUpto signer payload req now).1 = Except.ok r →
      r.invalidReason ≠ some "permit2_not_yet_valid") := by
  constructor
  · intro signer payload req now hsp hrc hd
    unfold verifyUpto
    rw [hd]
    simp [hsp, hrc, nanLe]
  · intro signer payload req now r hva h hr
    have hsrc := (verifyUpto_ok_reason_source signer payload req now r h).2 hr
    rw [hva] at hsrc
    simp [nanGt] at hsrc

def c8payload : UptoPermit2Payload :=
  { signature := "0xS",
    permit2Authorization :=
      { «from» := "0xF", permitted := { token := "0xT", amount := "1000000" },
        spender := X402_UPTO_PERMIT2_PROXY_ADDRESS, nonce := "42",
        deadline := "1000",
        witness := { «to» := "0xR", validAfter := "940", extra := "0x" } },
    settlementAmount := none }

def c8payload2 : UptoPermit2Payload :=
  { signature := "0xS",
    permit2Authorization :=
      { «from» := "0xF", permitted := { token := "0xT", amount := "1000000" },
        spender := X402_UPTO_PERMIT2_PROXY_ADDRESS, nonce := "42",
        deadline := "1300",
        witness := { «to» := "0xR", validAfter := "1000", extra := "0x" } },
    settlementAmount := none }

/-- Witness for C8: `deadline = "1000"` at `now = 1000` is rejected as
expired; `validAfter = "1000"` at `now = 1000` verifies fully. -/
theorem verifyUpto_time_boundaries_witness :
    (jsToLower c8payload.permit2Authorization.spender =
        jsToLower X402_UPTO_PERMIT2_PROXY_ADDRESS
      ∧ jsToLower c8payload.permit2Authorization.witness.«to» =
          jsToLower c2req.payTo
      ∧ parseIntJS c8payload.permit2Authorization.deadline = some 1000
      ∧ (verifyUpto c2sig c8payload c2req 1000).1 =
          Except.ok { isValid := false,
                      invalidReason := some "permit2_deadline_expired",
                      payer := none })
    ∧ (parseIntJS c8payload2.permit2Authorization.witness.validAfter = some 1000
      ∧ (verifyUpto c2sig c8payload2 c2req 1000).1 =
          Except.ok { isValid := true, invalidReason := none,
                      payer := some "0xF" }
      ∧ ({ isValid := true, invalidReason := none,
           payer := some "0xF" } : VerifyResult).invalidReason ≠
          some "permit2_not_yet_valid") :=
  ⟨⟨by decide, by decide, by decide,
    verifyUpto_time_boundaries.1 c2sig c8payload c2req 1000 (by decide)
      (by decide) (by decide)⟩,
   ⟨by decide, by decide,
    verifyUpto_time_boundaries.2 c2sig c8payload2 c2req 1000 _ (by decide)
      (by decide)⟩⟩

/-- C10: a payload whose deadline string is not parseable (parseInt NaN)
is never rejected as `permit2_deadline_expired` (NaN <= now is false), a
non-numeric `witness.validAfter` is never rejected as
`permit2_not_yet_valid`, and such payloads proceed to the later checks:
with both time strings unparseable, a payload failing the authorized
amount check is rejected as `insufficient_authorized_amount`. -/
theorem verifyUpto_nan_time_checks :
    (∀ (signer : FacilitatorSigner) (payload : UptoPermit2Payload)
        (req : UptoPaymentRequirements) (now : Int) (r : VerifyResult),
      parseIntJS payload.permit2Authorization.deadline = none →
      (verifyUpto signer payload req now).1 = Except.ok r →
      r.invalidReason ≠ some "permit2_deadline_expired")
    ∧ (∀ (signer : FacilitatorSigner) (payload : UptoPermit2Payload)
        (req : UptoPaymentRequirements) (now : Int) (r : VerifyResult),
      parseIntJS payload.permit2Authorization.witness.validAfter = none →
      (verifyUpto signer payload req now).1 = Except.ok r →
      r.invalidReason ≠ some "permit2_not_yet_valid")
    ∧ (∀ (signer : FacilitatorSigner) (payload : UptoPermit2Payload)
        (req : UptoPaymentRequirements) (now : Int) (amt mx : Int),
      jsToLower payload.permit2Authorization.spender =
        jsToLower X402_UPTO_PERMIT2_PROXY_ADDRESS →
      jsToLower payload.permit2Authorization.witness.«to» = jsToLower req.payTo →
      parseIntJS payload.permit2Authorization.deadline = none →
      parseIntJS payload.permit2Authorization.witness.validAfter = none →
      BigIntJS payload.permit2Authorization.permitted.amount = some amt →
      BigIntJS req.maxAmount = some mx →
      amt < mx →
      (verifyUpto signer payload req now).1 =
        Except.ok { isValid := false,
                    invalidReason := some "insufficient_authorized_amount",
                    payer := none }) := by
  refine ⟨?_, ?_, ?_⟩
  · intro signer payload req now r hd h hr
    have hsrc := (verifyUpto_ok_reason_source signer payload req now r h).1 hr
    rw [hd] at hsrc
    simp [nanLe] at hsrc
  · intro signer payload req now r hva h hr
    have hsrc := (verifyUpto_ok_reason_source signer payload req now r h).2 hr
    rw [hva] at hsrc
    simp [nanGt] at hsrc
  · intro signer payload req now amt mx hsp hrc hd hva hA hB hlt
    unfold verifyUpto
    rw [hd, hva, hA, hB]
    simp [hsp, hrc, nanLe, nanGt, hlt]

def c10payload : UptoPermit2Payload :=
  { signature := "0xS",
    permit2Authorization :=
      { «from» := "0xF", permitted := { token := "0xT", amount := "5" },
        spender := X402_UPTO_PERMIT2_PROXY_ADDRESS, nonce := "42",
        deadline := "zzz",
        witness := { «to» := "0xR", validAfter := "yyy", extra := "0x" } },
    settlementAmount := none }

/-- Witness for C10 at a payload with unparseable deadline and validAfter
strings and an under-authorized amount. -/
theorem verifyUpto_nan_time_checks_witness :
    (parseIntJS c10payload.permit2Authorization.deadline = none
      ∧ (verifyUpto c2sig c10payload c2req 1000).1 =
          Except.ok { isValid := false,
                      invalidReason := some "insufficient_authorized_amount",
                      payer := none }
      ∧ ({ isValid := false,
           invalidReason := some "insufficient_authorized_amount",
           payer := none } : VerifyResult).invalidReason ≠
          some "permit2_deadline_expired")
    ∧ (parseIntJS c10payload.permit2Authorization.witness.validAfter = none
      ∧ ({ isValid := false,
           invalidReason := some "insufficient_authorized_amount",
           payer := none } : VerifyResult).invalidReason ≠
          some "permit2_not_yet_valid")
    ∧ (BigIntJS c10payload.permit2Authorization.permitted.amount = some 5
      ∧ BigIntJS c2req.maxAmount = some 1000000
      ∧ (5 : Int) < 1000000
      ∧ (verifyUpto c2sig c10payload c2req 1000).1 =
          Except.ok { isValid := false,
                      invalidReason := some "insufficient_authorized_amount",
                      payer := none }) :=
  ⟨⟨by decide, by decide,
    verifyUpto_nan_time_checks.1 c2sig c10payload c2req 1000 _ (by decide)
      (by decide)⟩,
   ⟨by decide,
    verifyUpto_nan_time_checks.2.1 c2sig c10payload c2req 1000 _ (by decide)
      (by decide)⟩,
   ⟨by decide, by decide, by decide,
    verifyUpto_nan_time_checks.2.2 c2sig c10payload c2req 1000 5 1000000
      (by decide) (by decide) (by decide) (by decide) (by decide) (by decide)
      (by decide)⟩⟩

/-! ## Claim about the client builder against the verifier -/

theorem strVal_intToString_of_nonneg {i : Int} (h : 0 ≤ i) :
    strVal (intToString i) = i := by
  unfold intToString
  rw [if_neg (by omega), strVal_natToString]
  omega

/-- C6: a payload produced by createUptoPermit2Payload for valid
requirements (eip155 network, canonical maxAmount, positive timeout)
passes verifyUpto at the same time against the same requirements, under a
facilitator signer that reports the corresponding signature valid and
allowance and balance at least the authorized amount; and the builder sets
spender to the upto proxy constant, witness.to to requirements.payTo,
permitted.amount to requirements.maxAmount, deadline to
now + maxTimeoutSeconds and validAfter to now − 60. -/
theorem builder_payload_verifies
    (signer : FacilitatorSigner) (req : UptoPaymentRequirements)
    (addr sig : String) (now : Int) (nonce : Nat)
    (payload : UptoPermit2Payload)
    (hbuild : createUptoPermit2Payload addr sig req now nonce =
      Except.ok payload)
    (hT : 0 < req.maxTimeoutSeconds)
    (hnow : 60 ≤ now)
    (hmax : canonicalNat req.maxAmount = true)
    (hsig : signer.verifyTypedData (verifyCallOf payload req) = some true)
    (hallow : ∃ a, signer.readAllowance req.asset addr PERMIT2_ADDRESS =
      some a ∧ strVal req.maxAmount ≤ a)
    (hbal : ∃ b, signer.readBalance req.asset addr = some b ∧
      strVal req.maxAmount ≤ b) :
    (verifyUpto signer payload req now).1 =
      Except.ok { isValid := true, invalidReason := none, payer := some addr }
    ∧ payload.permit2Authorization.spender = X402_UPTO_PERMIT2_PROXY_ADDRESS
    ∧ payload.permit2Authorization.witness.«to» = req.payTo
    ∧ payload.permit2Authorization.permitted.amount = req.maxAmount
    ∧ payload.permit2Authorization.deadline =
        intToString (now + req.maxTimeoutSeconds)
    ∧ payload.permit2Authorization.witness.validAfter = intToString (now - 60) := by
  unfold createUptoPermit2Payload at hbuild
  by_cases hnet : (jsSplit req.network ':').length ≠ 2 ∨
      (jsSplit req.network ':').headD "" ≠ "eip155"
  · rw [if_pos hnet] at hbuild
    exact absurd hbuild (by simp)
  rw [if_neg hnet] at hbuild
  cases hbuild
  refine ⟨?_, rfl, rfl, rfl, rfl, rfl⟩
  obtain ⟨a, ha, hale⟩ := hallow
  obtain ⟨b, hb, hble⟩ := hbal
  have hd1 : parseIntJS (intToString (now + req.maxTimeoutSeconds)) =
      some (now + req.maxTimeoutSeconds) := parseIntJS_intToString _
  have hv1 : parseIntJS (intToString (now - 60)) = some (now - 60) :=
    parseIntJS_intToString _
  have hd2 : BigIntJS (intToString (now + req.maxTimeoutSeconds)) =
      some (now + req.maxTimeoutSeconds) := BigIntJS_intToString _
  have hv2 : BigIntJS (intToString (now - 60)) = some (now - 60) :=
    BigIntJS_intToString _
  have hn2 : BigIntJS (natToString nonce) = some (nonce : Int) :=
    BigIntJS_natToString _
  have hm2 : BigIntJS req.maxAmount = some (strVal req.maxAmount) :=
    BigIntJS_canonical hmax
  have hsd : strVal (intToString (now + req.maxTimeoutSeconds)) =
      now + req.maxTimeoutSeconds := strVal_intToString_of_nonneg (by omega)
  have hsv : strVal (intToString (now - 60)) = now - 60 :=
    strVal_intToString_of_nonneg (by omega)
  simp only [verifyCallOf, strVal_natToString, hsd, hsv] at hsig
  have hnd : ¬(now + req.maxTimeoutSeconds ≤ now) := by omega
  have hnv : ¬(now < now - 60) := by omega
  unfold verifyUpto mkPermit2Message
  dsimp only
  rw [hd1, hv1, hm2, hd2, hv2, hn2]
  rw [if_neg (by simp), if_neg (by simp)]
  rw [if_neg (by simp [nanLe, hnd]), if_neg (by simp [nanGt, hnv])]
  have hna : ¬(a < strVal req.maxAmount) := by omega
  have hnb : ¬(b < strVal req.maxAmount) := by omega
  simp [hsig, ha, hb, hna, hnb]

/-- Witness for C6 at concrete requirements on Base Sepolia. -/
theorem builder_payload_verifies_witness :
    createUptoPermit2Payload "0xF" "0xS" c2req 1000 42 = Except.ok c2payload
    ∧ (0 : Int) < c2req.maxTimeoutSeconds
    ∧ (60 : Int) ≤ 1000
    ∧ canonicalNat c2req.maxAmount = true
    ∧ c2sig.verifyTypedData (verifyCallOf c2payload c2req) = some true
    ∧ ((verifyUpto c2sig c2payload c2req 1000).1 =
        Except.ok { isValid := true, invalidReason := none,
                    payer := some "0xF" }
      ∧ c2payload.permit2Authorization.spender =
          X402_UPTO_PERMIT2_PROXY_ADDRESS
      ∧ c2payload.permit2Authorization.witness.«to» = c2req.payTo
      ∧ c2payload.permit2Authorization.permitted.amount = c2req.maxAmount
      ∧ c2payload.permit2Authorization.deadline =
          intToString (1000 + c2req.maxTimeoutSeconds)
      ∧ c2payload.permit2Authorization.witness.validAfter =
          intToString (1000 - 60)) :=
  ⟨by decide, by decide, by decide, by decide, by decide,
   builder_payload_verifies c2sig c2req "0xF" "0xS" 1000 42 c2payload
     (by decide) (by decide) (by decide) (by decide) (by decide)
     ⟨2000000, by decide, by decide⟩ ⟨2000000, by decide, by decide⟩⟩

/-! ## Claims about the middleware and the audit store -/

/-- C5: on a gated request carrying a payment header, when the
facilitator's verify reply is invalid the middleware responds 412 exactly
when the reason is `permit2_allowance_required` and 402 for every other
reason, with body
`{ error := "Payment verification failed", reason, accepts := [requirements] }`. -/
theorem middleware_verify_failure_status
    (routes : List (String × UptoRouteDefinition)) (method path : String)
    (xPayment paymentSignature : Option String)
    (decodePayload : String → Option UptoPermit2Payload)
    (rc : UptoRouteDefinition) (reqs : UptoPaymentRequirements)
    (hdr : String) (payload : UptoPermit2Payload) (v : VerifyResult)
    (hroute : List.lookup (method ++ " " ++ path) routes = some rc)
    (hreqs : mwBuildRequirements rc = Except.ok reqs)
    (hheader : nullish xPayment paymentSignature = some hdr)
    (hdecode : decodePayload hdr = some payload)
    (hinvalid : v.isValid = false) :
    uptoPaymentMiddleware routes method path xPayment paymentSignature
      decodePayload (some v) =
      Except.ok (MwOutcome.respond
        (if v.invalidReason = some "permit2_allowance_required" then 412 else 402)
        { error := "Payment verification failed", reason := v.invalidReason,
          accepts := [reqs], description := none, mimeType := none })
    ∧ ((if v.invalidReason = some "permit2_allowance_required" then (412 : Nat)
          else 402) = 412
        ↔ v.invalidReason = some "permit2_allowance_required")
    ∧ (v.invalidReason ≠ some "permit2_allowance_required" →
        (if v.invalidReason = some "permit2_allowance_required" then (412 : Nat)
          else 402) = 402) := by
  refine ⟨?_, ?_, ?_⟩
  · unfold uptoPaymentMiddleware
    rw [hroute]
    dsimp only
    rw [hreqs]
    dsimp only
    rw [hheader]
    dsimp only
    rw [hdecode]
    dsimp only
    rw [if_neg (by simp [hinvalid])]
  · by_cases hr : v.invalidReason = some "permit2_allowance_required" <;>
      simp [hr]
  · intro hr
    rw [if_neg hr]

def c5route : UptoRouteDefinition :=
  { maxPrice := "$1.00", network := "eip155:84532", payTo := "0xR",
    asset := some "0xT", maxTimeoutSeconds := none, description := none,
    mimeType := none }

def c5reqs : UptoPaymentRequirements :=
  { scheme := "upto", network := "eip155:84532", asset := "0xT",
    maxAmount := "1000000", payTo := "0xR", maxTimeoutSeconds := 300 }

def c5verdict : VerifyResult :=
  { isValid := false, invalidReason := some "permit2_allowance_required",
    payer := none }

/-- Witness for C5 at a concrete gated request whose verify reply is
`permit2_allowance_required` (mapped to 412). -/
theorem middleware_verify_failure_status_witness :
    List.lookup ("GET" ++ " " ++ "/paid") [("GET /paid", c5route)] =
      some c5route
    ∧ mwBuildRequirements c5route = Except.ok c5reqs
    ∧ nullish (some "hdr") none = some "hdr"
    ∧ c5verdict.isValid = false
    ∧ (uptoPaymentMiddleware [("GET /paid", c5route)] "GET" "/paid"
        (some "hdr") none (fun _ => some c2payload) (some c5verdict) =
        Except.ok (MwOutcome.respond
          (if c5verdict.invalidReason = some "permit2_allowance_required"
            then 412 else 402)
          { error := "Payment verification failed",
            reason := c5verdict.invalidReason, accepts := [c5reqs],
            description := none, mimeType := none })
      ∧ ((if c5verdict.invalidReason = some "permit2_allowance_required"
            then (412 : Nat) else 402) = 412
          ↔ c5verdict.invalidReason = some "permit2_allowance_required")
      ∧ (c5verdict.invalidReason ≠ some "permit2_allowance_required" →
          (if c5verdict.invalidReason = some "permit2_allowance_required"
            then (412 : Nat) else 402) = 402)) :=
  ⟨by decide, by decide, by decide, by decide,
   middleware_verify_failure_status [("GET /paid", c5route)] "GET" "/paid"
     (some "hdr") none (fun _ => some c2payload) c5route c5reqs "hdr"
     c2payload c5verdict (by decide) (by decide) (by decide) (by decide)
     (by decide)⟩

def c7config : UptoRouteDefinition :=
  { maxPrice := "$1.00", network := "eip155:8453", payTo := "0xR",
    asset := none, maxTimeoutSeconds := none, description := none,
    mimeType := none }

def c7configUnknown : UptoRouteDefinition :=
  { maxPrice := "$1.00", network := "eip155:1", payTo := "0xR",
    asset := none, maxTimeoutSeconds := none, description := none,
    mimeType := none }

/-- C7 counterexample: for a Base-mainnet route (`eip155:8453`) omitting
`asset`, the middleware's requirements carry the hard-coded Base Sepolia
USDC address, not that network's default token, and for a network with no
known default (`eip155:1`) requirements building succeeds instead of
failing. -/
theorem middleware_default_asset_counterexample :
    mwBuildRequirements c7config =
      Except.ok { scheme := "upto", network := "eip155:8453",
                  asset := "0x036CbD53842c5426634e7929541eC2318f3dCF7e",
                  maxAmount := "1000000", payTo := "0xR",
                  maxTimeoutSeconds := 300 }
    ∧ List.lookup "eip155:8453" USDC_ADDRESSES =
        some "0x833589fCD6eDb6E08f4c7C32D4f71b54bdA02913"
    ∧ ("0x036CbD53842c5426634e7929541eC2318f3dCF7e" : String) ≠
        "0x833589fCD6eDb6E08f4c7C32D4f71b54bdA02913"
    ∧ mwBuildRequirements c7configUnknown =
        Except.ok { scheme := "upto", network := "eip155:1",
                    asset := "0x036CbD53842c5426634e7929541eC2318f3dCF7e",
                    maxAmount := "1000000", payTo := "0xR",
                    maxTimeoutSeconds := 300 } := by
  refine ⟨by decide, by decide, by decide, by decide⟩

/-- C7 (amended): when a route omits `asset` the middleware always uses
the fixed Base Sepolia USDC address `0x036CbD…` regardless of the route's
network and never fails requirements building on an unknown network; the
per-network default lookup that fails on unknown networks is implemented
in `UptoEvmServerScheme.buildRequirements`, which the middleware does not
call. -/
theorem middleware_default_asset_amended :
    (∀ (rc : UptoRouteDefinition) (r : UptoPaymentRequirements),
      rc.asset = none → mwBuildRequirements rc = Except.ok r →
      r.asset = "0x036CbD53842c5426634e7929541eC2318f3dCF7e")
    ∧ (∀ cfg : UptoRouteConfig, cfg.asset = none →
      List.lookup cfg.network USDC_ADDRESSES = none →
      UptoEvmServerScheme.buildRequirements cfg = Except.error ())
    ∧ (∀ (cfg : UptoRouteConfig) (r : UptoPaymentRequirements),
      cfg.asset = none →
      UptoEvmServerScheme.buildRequirements cfg = Except.ok r →
      List.lookup cfg.network USDC_ADDRESSES = some r.asset) := by
  refine ⟨?_, ?_, ?_⟩
  · intro rc r hasset h
    unfold mwBuildRequirements at h
    rcases hp : parseUsdcAmount rc.maxPrice with e | m
    · rw [hp] at h; simp at h
    · rw [hp] at h
      dsimp only at h
      cases h
      rw [hasset]
      rfl
  · intro cfg hasset hlookup
    unfold UptoEvmServerScheme.buildRequirements
    rw [hasset]
    dsimp only
    rw [hlookup]
  · intro cfg r hasset h
    unfold UptoEvmServerScheme.buildRequirements at h
    rw [hasset] at h
    dsimp only at h
    rcases hl : List.lookup cfg.network USDC_ADDRESSES with _ | a
    · rw [hl] at h; simp at h
    · rw [hl] at h
      dsimp only at h
      split_ifs at h with he
      rcases hp : parseUsdcAmount cfg.maxPrice with e | m
      · rw [hp] at h; simp at h
      · rw [hp] at h
        dsimp only at h
        cases h
        rfl

def c7cfg8453 : UptoRouteConfig :=
  { maxPrice := "$1.00", network := "eip155:8453", payTo := "0xR",
    asset := none, maxTimeoutSeconds := none }

def c7cfgUnknown : UptoRouteConfig :=
  { maxPrice := "$1.00", network := "eip155:1", payTo := "0xR",
    asset := none, maxTimeoutSeconds := none }

/-- Witness for the amended C7 at concrete configurations. -/
theorem middleware_default_asset_amended_witness :
    (c7config.asset = none
      ∧ mwBuildRequirements c7config =
          Except.ok { scheme := "upto", network := "eip155:8453",
                      asset := "0x036CbD53842c5426634e7929541eC2318f3dCF7e",
                      maxAmount := "1000000", payTo := "0xR",
                      maxTimeoutSeconds := 300 }
      ∧ ({ scheme := "upto", network := "eip155:8453",
           asset := "0x036CbD53842c5426634e7929541eC2318f3dCF7e",
           maxAmount := "1000000", payTo := "0xR",
           maxTimeoutSeconds := 300 } : UptoPaymentRequirements).asset =
          "0x036CbD53842c5426634e7929541eC2318f3dCF7e")
    ∧ (c7cfgUnknown.asset = none
      ∧ List.lookup c7cfgUnknown.network USDC_ADDRESSES = none
      ∧ UptoEvmServerScheme.buildRequirements c7cfgUnknown = Except.error ())
    ∧ (c7cfg8453.asset = none
      ∧ UptoEvmServerScheme.buildRequirements c7cfg8453 =
          Except.ok { scheme := "upto", network := "eip155:8453",
                      asset := "0x833589fCD6eDb6E08f4c7C32D4f71b54bdA02913",
                      maxAmount := "1000000", payTo := "0xR",
                      maxTimeoutSeconds := 300 }
      ∧ List.lookup c7cfg8453.network USDC_ADDRESSES =
          some ({ scheme := "upto", network := "eip155:8453",
                  asset := "0x833589fCD6eDb6E08f4c7C32D4f71b54bdA02913",
                  maxAmount := "1000000", payTo := "0xR",
                  maxTimeoutSeconds := 300 } : UptoPaymentRequirements).asset) :=
  ⟨⟨by decide, by decide,
    middleware_default_asset_amended.1 c7config _ (by decide) (by decide)⟩,
   ⟨by decide, by decide,
    middleware_default_asset_amended.2.1 c7cfgUnknown (by decide) (by decide)⟩,
   ⟨by decide, by decide,
    middleware_default_asset_amended.2.2 c7cfg8453 _ (by decide) (by decide)⟩⟩

/-- C9: recordVerification is idempotent per nonce: inserting a record
whose nonce already exists leaves the payments table unchanged
(INSERT OR IGNORE against the UNIQUE nonce column), and any sequence of
recordVerification calls starting from the empty table leaves at most one
row per nonce. -/
theorem recordVerification_idempotent :
    (∀ (db : List PaymentRow) (r : PaymentRecord),
      db.any (fun row => row.nonce == r.nonce) = true →
      recordVerification db r = db)
    ∧ (∀ (records : List PaymentRecord) (n : String),
      nonceCount (records.foldl recordVerification []) n ≤ 1) := by
  have hstep : ∀ (db : List PaymentRow) (r : PaymentRecord) (n : String),
      nonceCount db n ≤ 1 → nonceCount (recordVerification db r) n ≤ 1 := by
    intro db r n hdb
    unfold recordVerification
    by_cases h : db.any (fun row => row.nonce == r.nonce) = true
    · rw [if_pos h]; exact hdb
    · rw [if_neg h]
      unfold nonceCount at hdb ⊢
      rw [List.filter_append, List.length_append]
      simp only [List.any_eq_true, beq_iff_eq, not_exists, not_and] at h
      by_cases hn : r.nonce = n
      · have hdb0 : List.filter (fun row => row.nonce == n) db = [] := by
          rw [List.filter_eq_nil]
          intro row hrow hpn
          exact absurd (by simpa [hn] using (beq_iff_eq.mp hpn))
            (fun he => (h row hrow) he)
        rw [hdb0]
        simp [hn]
      · have hne : (r.nonce == n) = false := beq_eq_false_iff_ne.mpr hn
        have hone : List.filter (fun row => row.nonce == n)
            [({ payer := r.payer, recipient := r.recipient, token := r.token,
                authorized_amount := r.authorized_amount,
                settled_amount := none, nonce := r.nonce, tx_hash := none,
                status := "verified", network := r.network } : PaymentRow)] = [] := by
          simp [List.filter, hne]
        rw [hone]
        simpa using hdb
  constructor
  · intro db r h
    unfold recordVerification
    rw [if_pos h]
  · intro records n
    have hfold : ∀ db, nonceCount db n ≤ 1 →
        nonceCount (records.foldl recordVerification db) n ≤ 1 := by
      induction records with
      | nil => intro db h; simpa using h
      | cons r rs ih =>
        intro db h
        exact ih (recordVerification db r) (hstep db r n h)
    exact hfold [] (by simp [nonceCount])

def c9row : PaymentRow :=
  { payer := "0xP", recipient := "0xR", token := "0xT",
    authorized_amount := "1000000", settled_amount := none, nonce := "42",
    tx_hash := none, status := "verified", network := "eip155:84532" }

def c9record : PaymentRecord :=
  { payer := "0xQ", recipient := "0xS", token := "0xU",
    authorized_amount := "2000000", settled_amount := none, nonce := "42",
    tx_hash := none, status := "verified", network := "eip155:84532" }

/-- Witness for C9: re-inserting an existing nonce is a no-op and two
identical verifies leave one row. -/
theorem recordVerification_idempotent_witness :
    [c9row].any (fun row => row.nonce == c9record.nonce) = true
    ∧ recordVerification [c9row] c9record = [c9row]
    ∧ nonceCount ([c9record, c9record].foldl recordVerification []) "42" ≤ 1 :=
  ⟨by decide,
   recordVerification_idempotent.1 [c9row] c9record (by decide),
   recordVerification_idempotent.2 [c9record, c9record] "42"⟩
